import Mathlib

/-!
Verification of the Cloudflare Workers task-queue system.

The system has three roles:
* the Handoff Broker (consumer-worker/src/index.ts): a queue handler that
  buffers delivered tasks in a KV namespace, and HTTP routes to list, claim
  and retire buffered tasks;
* the Submission Service (the Hono API worker): submit, status, completion
  and listing routes over an authoritative KV store;
* the Worker (the local consumer): a polling loop that claims, executes and
  reports tasks.

The KV store is modelled as an association list from keys to values paired
with an optional absolute expiry time, reflecting the expirationTtl
semantics of Cloudflare KV: an expired key is treated as absent by reads.
Timestamps generated by the code (ISO strings) are passed in explicitly as
parameters; logical time for expiry checks is a natural number.
-/

set_option autoImplicit false

namespace TaskQueue

/-- Status of a buffer entry, from the BufferedTask.status union in
consumer-worker/src/index.ts. -/
inductive BufStatus where
  | ready
  | processing
  | completed
deriving DecidableEq

/-- A buffered task, from the BufferedTask interface in
consumer-worker/src/index.ts: the QueueMessage fields plus status,
receivedAt and the optional claimedAt. JS values that may be undefined are
modelled as Option. -/
structure BufferedTask where
  taskId : String
  type : String
  payload : Option String
  createdAt : String
  status : BufStatus
  receivedAt : String
  claimedAt : Option String
deriving DecidableEq

/-- A stored KV value together with its optional absolute expiry time
(from the expirationTtl put option): once the expiry has passed the key is
treated as absent by reads even if physically still stored. -/
structure KVEntry (α : Type) where
  value : α
  expiresAt : Option Nat
deriving DecidableEq

/-- First-match lookup in an association list, the model of a KV get on the
raw physical store (before the expiry check). -/
def kvLookup {α : Type} : List (String × α) → String → Option α
  | [], _ => none
  | (k', v) :: rest, k => if k' = k then some v else kvLookup rest k

/-- Removal of a key, the model of a KV delete. -/
def kvErase {α : Type} : List (String × α) → String → List (String × α)
  | [], _ => []
  | (k', v) :: rest, k =>
    if k' = k then kvErase rest k else (k', v) :: kvErase rest k

/-- A KV put: replaces any existing entry for the key. -/
def kvInsert {α : Type} (store : List (String × α)) (k : String) (v : α) :
    List (String × α) :=
  (k, v) :: kvErase store k

/-- The TASK_BUFFER KV namespace of the Handoff Broker. The string keys
model the task:id keys of the source. -/
abbrev TaskBuffer := List (String × KVEntry BufferedTask)

/-- A KV put on the buffer with an optional expiry. -/
def kvPut (store : TaskBuffer) (k : String) (v : BufferedTask)
    (exp : Option Nat) : TaskBuffer :=
  kvInsert store k ⟨v, exp⟩

/-- A KV get on the buffer at logical time now: a logically expired entry
reads as absent. -/
def kvGet (store : TaskBuffer) (k : String) (now : Nat) :
    Option BufferedTask :=
  match kvLookup store k with
  | none => none
  | some e =>
    match e.expiresAt with
    | none => some e.value
    | some t => if now < t then some e.value else none

/-- A message delivered by the durable queue, from the QueueMessage
interface in consumer-worker/src/index.ts. -/
structure QueueMessage where
  taskId : String
  type : String
  payload : Option String
  createdAt : String
deriving DecidableEq

/-- The BufferedTask built by the broker queue handler from a delivered
message: the message body spread together with status ready and a fresh
receivedAt. -/
def deliveredTask (msg : QueueMessage) (nowIso : String) : BufferedTask :=
  { taskId := msg.taskId, type := msg.type, payload := msg.payload,
    createdAt := msg.createdAt, status := .ready, receivedAt := nowIso,
    claimedAt := none }

/-- The broker queue handler for one delivered message
(consumer-worker/src/index.ts, lines 22-49): unconditionally overwrites the
buffer entry for the message's taskId with a fresh ready entry carrying a
fresh receivedAt and a 24h (86400 s) expiry. -/
def queueDeliver (store : TaskBuffer) (msg : QueueMessage) (nowIso : String)
    (now : Nat) : TaskBuffer :=
  kvPut store msg.taskId (deliveredTask msg nowIso) (some (now + 86400))

/-- The keys enumerated by TASK_BUFFER.list with the task: prefix. -/
def listKeys (store : TaskBuffer) : List String := store.map Prod.fst

/-- The GET /tasks/ready route (consumer-worker/src/index.ts, lines
79-100): list the keys, get each one (an expired entry reads as absent),
and keep exactly the entries whose status is ready. -/
def listReady (store : TaskBuffer) (now : Nat) : List BufferedTask :=
  (listKeys store).filterMap fun k =>
    match kvGet store k now with
    | none => none
    | some t => if t.status = BufStatus.ready then some t else none

/-- Outcome of the POST /tasks/:id/claim route: notFound is the 404
response (NotFoundError), conflict the 409 response (ConflictError),
claimed the 200 response carrying the updated task. -/
inductive ClaimResult where
  | notFound
  | conflict (current : BufStatus)
  | claimed (task : BufferedTask)
deriving DecidableEq

/-- The POST /tasks/:id/claim route (consumer-worker/src/index.ts, lines
103-144): 404 when the get returns nothing, 409 when the status is not
ready, otherwise set status to processing, stamp claimedAt, and put the
updated entry back (this put carries no expirationTtl). -/
def claim (store : TaskBuffer) (taskId : String) (now : Nat)
    (nowIso : String) : ClaimResult × TaskBuffer :=
  match kvGet store taskId now with
  | none => (.notFound, store)
  | some task =>
    if task.status ≠ BufStatus.ready then
      (.conflict task.status, store)
    else
      let updated : BufferedTask :=
        { task with status := .processing, claimedAt := some nowIso }
      (.claimed updated, kvPut store taskId updated none)

/-- The JSON acknowledgement returned by the broker complete route. -/
structure BrokerAck where
  success : Bool
deriving DecidableEq

/-- The POST /tasks/:id/complete route (consumer-worker/src/index.ts,
lines 147-162): delete the entry unconditionally and answer success; there
is no failure branch. -/
def completeTask (store : TaskBuffer) (taskId : String) :
    BrokerAck × TaskBuffer :=
  (⟨true⟩, kvErase store taskId)

/- Association-list lemmas shared by the theorems below. -/

theorem kvLookup_kvErase_self {α : Type} (store : List (String × α))
    (k : String) : kvLookup (kvErase store k) k = none := by
  induction store with
  | nil => rfl
  | cons p rest ih =>
    obtain ⟨k', v⟩ := p
    by_cases h : k' = k
    · simp [kvErase, h, ih]
    · simp [kvErase, kvLookup, h, ih]

theorem kvLookup_kvErase_ne {α : Type} (store : List (String × α))
    (k k' : String) (h : k' ≠ k) :
    kvLookup (kvErase store k) k' = kvLookup store k' := by
  induction store with
  | nil => rfl
  | cons p rest ih =>
    obtain ⟨k₀, v⟩ := p
    by_cases h0 : k₀ = k
    · have hne : k ≠ k' := fun hc => h hc.symm
      simp [kvErase, kvLookup, h0, hne, ih]
    · by_cases h1 : k₀ = k'
      · simp [kvErase, kvLookup, h0, h1, h]
      · simp [kvErase, kvLookup, h0, h1, ih]

theorem kvLookup_kvInsert_self {α : Type} (store : List (String × α))
    (k : String) (v : α) : kvLookup (kvInsert store k v) k = some v := by
  simp [kvInsert, kvLookup]

theorem kvLookup_kvInsert_ne {α : Type} (store : List (String × α))
    (k k' : String) (v : α) (h : k' ≠ k) :
    kvLookup (kvInsert store k v) k' = kvLookup store k' := by
  have hk : k ≠ k' := fun hc => h hc.symm
  simp [kvInsert, kvLookup, hk, kvLookup_kvErase_ne store k k' h]

theorem kvErase_kvErase_self {α : Type} (store : List (String × α))
    (k : String) : kvErase (kvErase store k) k = kvErase store k := by
  induction store with
  | nil => rfl
  | cons p rest ih =>
    obtain ⟨k', v⟩ := p
    by_cases h : k' = k
    · simp [kvErase, h, ih]
    · simp [kvErase, h, ih]

theorem kvErase_kvInsert_self {α : Type} (store : List (String × α))
    (k : String) (v : α) :
    kvErase (kvInsert store k v) k = kvErase store k := by
  simp [kvInsert, kvErase, kvErase_kvErase_self]

/-- A sample buffered task used by concrete witnesses. -/
def sampleBufTask (st : BufStatus) : BufferedTask :=
  { taskId := "a", type := "email", payload := some "p", createdAt := "t0",
    status := st, receivedAt := "t1", claimedAt := none }

/-- A buffer holding one unexpired ready entry for key a. -/
def readyStore : TaskBuffer := [("a", ⟨sampleBufTask .ready, some 100⟩)]

/-- A buffer holding one processing entry for key a. -/
def procStore : TaskBuffer := [("a", ⟨sampleBufTask .processing, none⟩)]

/-- A buffer holding one ready entry for key a whose expiry is 5. -/
def expiredStore : TaskBuffer := [("a", ⟨sampleBufTask .ready, some 5⟩)]

/-- C1: a claim on a taskId whose entry is absent (in particular, one that
is physically stored but logically expired) answers 404 NotFoundError, and
a claim on an entry whose status is not ready answers 409 ConflictError;
in both failure cases the buffer store is returned unchanged. -/
theorem claim_failure_cases (store : TaskBuffer) (taskId : String)
    (now : Nat) (nowIso : String) :
    (kvGet store taskId now = none →
      claim store taskId now nowIso = (.notFound, store))
    ∧ (∀ t, kvGet store taskId now = some t → t.status ≠ BufStatus.ready →
      claim store taskId now nowIso = (.conflict t.status, store))
    ∧ (∀ e exp, kvLookup store taskId = some e → e.expiresAt = some exp →
      exp ≤ now → claim store taskId now nowIso = (.notFound, store)) := by
  refine ⟨?_, ?_, ?_⟩
  · intro h
    simp [claim, h]
  · intro t h hst
    simp [claim, h, hst]
  · intro e exp he hexp hle
    have hget : kvGet store taskId now = none := by
      simp [kvGet, he, hexp, Nat.not_lt.mpr hle]
    simp [claim, hget]

/-- Witness for claim_failure_cases: the missing, not-ready and expired
failure cases at concrete inputs. -/
theorem claim_failure_cases_witness :
    (claim [] "a" 0 "t2" = (.notFound, ([] : TaskBuffer)))
    ∧ (claim procStore "a" 0 "t2" = (.conflict .processing, procStore))
    ∧ (claim expiredStore "a" 7 "t2" = (.notFound, expiredStore)) :=
  ⟨(claim_failure_cases [] "a" 0 "t2").1 rfl,
   (claim_failure_cases procStore "a" 0 "t2").2.1
     (sampleBufTask .processing) rfl (by decide),
   (claim_failure_cases expiredStore "a" 7 "t2").2.2
     ⟨sampleBufTask .ready, some 5⟩ 5 rfl rfl (by decide)⟩

/-- C2: a claim on a taskId whose entry reads as present with status ready
succeeds: the response carries the entry with status processing,
claimedAt stamped and every other field unchanged, the same updated entry
is stored back under the taskId, and no other key of the buffer is
touched. -/
theorem claim_ready_success (store : TaskBuffer) (taskId : String)
    (now : Nat) (nowIso : String) (t : BufferedTask)
    (h1 : kvGet store taskId now = some t)
    (h2 : t.status = BufStatus.ready) :
    claim store taskId now nowIso =
      (.claimed { t with status := .processing, claimedAt := some nowIso },
        kvPut store taskId
          { t with status := .processing, claimedAt := some nowIso } none)
    ∧ kvLookup (claim store taskId now nowIso).2 taskId =
        some ⟨{ t with status := .processing, claimedAt := some nowIso },
          none⟩
    ∧ (∀ k, k ≠ taskId →
        kvLookup (claim store taskId now nowIso).2 k = kvLookup store k) := by
  have hc : claim store taskId now nowIso =
      (.claimed { t with status := .processing, claimedAt := some nowIso },
        kvPut store taskId
          { t with status := .processing, claimedAt := some nowIso } none) := by
    simp [claim, h1, h2]
  refine ⟨hc, ?_, ?_⟩
  · rw [hc]
    exact kvLookup_kvInsert_self store taskId _
  · intro k hk
    rw [hc]
    exact kvLookup_kvInsert_ne store taskId k _ hk

/-- The entry of readyStore after a successful claim stamped at t2. -/
def sampleClaimedTask : BufferedTask :=
  { (sampleBufTask .ready) with
      status := .processing
      claimedAt := some "t2" }

/-- Witness for claim_ready_success: claiming the ready entry of
readyStore at time 0 yields the processing entry stamped with the supplied
timestamp. -/
theorem claim_ready_success_witness :
    claim readyStore "a" 0 "t2" =
      (.claimed sampleClaimedTask, kvPut readyStore "a" sampleClaimedTask none) :=
  (claim_ready_success readyStore "a" 0 "t2" (sampleBufTask .ready) rfl
    rfl).1

/-- C5: the broker complete route never fails: it answers success
unconditionally, after it the entry for the taskId is gone (whatever its
status was, or if it never existed), a second call on the same id succeeds
and changes nothing, and no other key is touched. -/
theorem completeTask_never_fails (store : TaskBuffer) (taskId : String) :
    (completeTask store taskId).1 = ⟨true⟩
    ∧ kvLookup (completeTask store taskId).2 taskId = none
    ∧ completeTask (completeTask store taskId).2 taskId =
        (⟨true⟩, (completeTask store taskId).2)
    ∧ (∀ k, k ≠ taskId →
        kvLookup (completeTask store taskId).2 k = kvLookup store k) := by
  refine ⟨rfl, kvLookup_kvErase_self store taskId, ?_, ?_⟩
  · simp [completeTask, kvErase_kvErase_self]
  · intro k hk
    exact kvLookup_kvErase_ne store taskId k hk

/-- Witness for completeTask_never_fails: retiring the still-ready entry of
readyStore succeeds and removes it, and retiring an id never buffered also
succeeds. -/
theorem completeTask_never_fails_witness :
    (completeTask readyStore "a").1 = ⟨true⟩
    ∧ kvLookup (completeTask readyStore "a").2 "a" = none
    ∧ kvLookup (completeTask readyStore "a").2 "b" = kvLookup readyStore "b"
    ∧ (completeTask [] "a").1 = ⟨true⟩ :=
  ⟨(completeTask_never_fails readyStore "a").1,
   (completeTask_never_fails readyStore "a").2.1,
   (completeTask_never_fails readyStore "a").2.2.2 "b" (by decide),
   (completeTask_never_fails [] "a").1⟩

theorem mem_of_kvLookup_eq_some {α : Type} (store : List (String × α))
    (k : String) (v : α) (h : kvLookup store k = some v) :
    (k, v) ∈ store := by
  induction store with
  | nil => cases h
  | cons p rest ih =>
    obtain ⟨k', v'⟩ := p
    by_cases hk : k' = k
    · rw [kvLookup, if_pos hk] at h
      injection h with h
      subst hk h
      exact List.mem_cons_self _ _
    · rw [kvLookup, if_neg hk] at h
      exact List.mem_cons_of_mem _ (ih h)

theorem kvLookup_eq_some_of_mem {α : Type} (store : List (String × α))
    (k : String) (v : α) (hnd : (store.map Prod.fst).Nodup)
    (h : (k, v) ∈ store) : kvLookup store k = some v := by
  induction store with
  | nil => cases h
  | cons p rest ih =>
    obtain ⟨k', v'⟩ := p
    rw [List.map_cons, List.nodup_cons] at hnd
    rcases List.mem_cons.mp h with heq | hmem
    · injection heq with h1 h2
      subst h1 h2
      rw [kvLookup, if_pos rfl]
    · by_cases hk : k' = k
      · exfalso
        apply hnd.1
        subst hk
        exact List.mem_map.mpr ⟨(k', v), hmem, rfl⟩
      · rw [kvLookup, if_neg hk]
        exact ih hnd.2 hmem

theorem kvGet_eq_some_iff (store : TaskBuffer) (k : String) (now : Nat)
    (t : BufferedTask) :
    kvGet store k now = some t ↔
      ∃ e, kvLookup store k = some e ∧ e.value = t ∧
        ∀ exp, e.expiresAt = some exp → now < exp := by
  cases hl : kvLookup store k with
  | none => simp [kvGet, hl]
  | some e =>
    cases hexp : e.expiresAt with
    | none => simp [kvGet, hl, hexp]
    | some texp =>
      by_cases hlt : now < texp
      · simp [kvGet, hl, hexp, hlt]
      · simp [kvGet, hl, hexp, hlt]

/-- C6: the ready listing contains exactly the stored entries whose status
is ready and whose logical expiry has not yet elapsed at the time of the
call; in particular an entry whose expiry has elapsed never appears even
though it is physically still in the store. The hypothesis says the
physical store holds at most one entry per key, which every store built by
KV puts and deletes satisfies. -/
theorem listReady_spec (store : TaskBuffer) (now : Nat)
    (hnd : (listKeys store).Nodup) (t : BufferedTask) :
    t ∈ listReady store now ↔
      ∃ k e, (k, e) ∈ store ∧ e.value = t ∧ t.status = BufStatus.ready ∧
        ∀ exp, e.expiresAt = some exp → now < exp := by
  unfold listReady
  rw [List.mem_filterMap]
  constructor
  · rintro ⟨k, hk, hf⟩
    cases hget : kvGet store k now with
    | none =>
      rw [hget] at hf
      simp at hf
    | some t' =>
      rw [hget] at hf
      by_cases hst : t'.status = BufStatus.ready
      · simp [hst] at hf
        subst hf
        obtain ⟨e, hl, hv, hx⟩ := (kvGet_eq_some_iff store k now t').mp hget
        exact ⟨k, e, mem_of_kvLookup_eq_some store k e hl, hv, hst, hx⟩
      · simp [hst] at hf
  · rintro ⟨k, e, hmem, hv, hst, hx⟩
    refine ⟨k, ?_, ?_⟩
    · exact List.mem_map.mpr ⟨(k, e), hmem, rfl⟩
    · have hget : kvGet store k now = some t :=
        (kvGet_eq_some_iff store k now t).mpr
          ⟨e, kvLookup_eq_some_of_mem store k e hnd hmem, hv, hx⟩
      simp [hget, hst]

/-- A buffer with one unexpired ready entry, one expired ready entry and
one processing entry, for the listing witness. -/
def mixedStore : TaskBuffer :=
  [("a", ⟨sampleBufTask .ready, some 100⟩),
   ("b", ⟨{ (sampleBufTask .ready) with taskId := "b" }, some 5⟩),
   ("c", ⟨{ (sampleBufTask .processing) with taskId := "c" }, none⟩)]

/-- Witness for listReady_spec: in mixedStore at time 10 the unexpired
ready entry is listed. -/
theorem listReady_spec_witness :
    sampleBufTask .ready ∈ listReady mixedStore 10 :=
  (listReady_spec mixedStore 10 (by decide) (sampleBufTask .ready)).mpr
    ⟨"a", ⟨sampleBufTask .ready, some 100⟩, by decide, rfl, rfl,
      by intro exp hx; simp [KVEntry.expiresAt] at hx; omega⟩

/-- C9: redelivery of a message whose buffer entry is currently processing
unconditionally overwrites it back to a ready entry with a fresh
receivedAt, and a subsequent claim at the same instant succeeds: the task
being executed becomes claimable again. -/
theorem redelivery_makes_processing_reclaimable (store : TaskBuffer)
    (msg : QueueMessage) (now : Nat) (nowIso claimIso : String)
    (e : KVEntry BufferedTask)
    (_hcur : kvLookup store msg.taskId = some e)
    (_hproc : e.value.status = BufStatus.processing) :
    kvGet (queueDeliver store msg nowIso now) msg.taskId now =
      some (deliveredTask msg nowIso)
    ∧ (claim (queueDeliver store msg nowIso now) msg.taskId now claimIso).1 =
      .claimed { (deliveredTask msg nowIso) with
          status := .processing
          claimedAt := some claimIso } := by
  have hget : kvGet (queueDeliver store msg nowIso now) msg.taskId now =
      some (deliveredTask msg nowIso) := by
    unfold queueDeliver kvPut kvGet
    rw [kvLookup_kvInsert_self]
    simp
  refine ⟨hget, ?_⟩
  simp [claim, hget, deliveredTask]

/-- A delivered message for the redelivery witness. -/
def sampleMsg : QueueMessage :=
  { taskId := "a", type := "email", payload := some "p", createdAt := "t0" }

/-- Witness for redelivery_makes_processing_reclaimable: redelivering the
message of the processing entry in procStore makes it ready and claimable
again. -/
theorem redelivery_makes_processing_reclaimable_witness :
    kvGet (queueDeliver procStore sampleMsg "t3" 50) "a" 50 =
      some (deliveredTask sampleMsg "t3")
    ∧ (claim (queueDeliver procStore sampleMsg "t3" 50) "a" 50 "t4").1 =
      .claimed { (deliveredTask sampleMsg "t3") with
          status := .processing
          claimedAt := some "t4" } :=
  redelivery_makes_processing_reclaimable procStore sampleMsg 50 "t3" "t4"
    ⟨sampleBufTask .processing, none⟩ rfl rfl

/-!
The Worker (local consumer TaskConsumer class). Its per-task behaviour is
modelled as the trace of outward calls it performs while processing one
claimed task. The success flag on the report call is the execution
outcome; the ok flag records whether the HTTP call itself succeeded, since
markTaskCompleted and completeTaskInBuffer each catch and log their own
failures rather than rethrow.
-/

/-- An outward call made by the Worker while processing a claimed task. -/
inductive WorkerAction where
  | reportCompletionCall (taskId : String) (success : Bool) (ok : Bool)
  | completeBufferCall (taskId : String)
deriving DecidableEq

/-- TaskConsumer.markTaskCompleted: posts the outcome to the Submission
Service; a failing post (ok = false) is caught and logged inside the
method, never rethrown. -/
def markTaskCompleted (taskId : String) (success : Bool) (ok : Bool) :
    List WorkerAction :=
  [.reportCompletionCall taskId success ok]

/-- TaskConsumer.completeTaskInBuffer: posts the broker complete route;
failures are caught and logged inside the method. -/
def completeTaskInBuffer (taskId : String) : List WorkerAction :=
  [.completeBufferCall taskId]

/-- TaskConsumer.processTask on a claimed task: execute (simulateWork),
then on resolution report success to the Submission Service and retire the
buffer entry; on rejection report failure and retire the buffer entry.
execSucceeds is whether simulateWork resolves; reportOk is whether the
reportCompletion HTTP call succeeds. -/
def processTask (taskId : String) (execSucceeds reportOk : Bool) :
    List WorkerAction :=
  if execSucceeds then
    markTaskCompleted taskId true reportOk ++ completeTaskInBuffer taskId
  else
    markTaskCompleted taskId false reportOk ++ completeTaskInBuffer taskId

/-- C3: for every claimed task and every combination of execution outcome
and reportCompletion outcome, the Worker's trace is exactly one
reportCompletion call to the Submission Service, carrying the execution
outcome, followed by the broker retire call; in particular the retire call
still happens when the reportCompletion call itself fails. -/
theorem processTask_report_before_retire (taskId : String)
    (execSucceeds reportOk : Bool) :
    processTask taskId execSucceeds reportOk =
      [.reportCompletionCall taskId execSucceeds reportOk,
       .completeBufferCall taskId] := by
  cases execSucceeds <;> rfl

/-!
The Submission Service (the Hono API worker). Its authoritative store is
the TASK_STORAGE KV namespace; no put on it carries an expirationTtl, so
it is modelled as a plain association list. JS truthiness of the optional
JSON fields is modelled by jsTruthy.
-/

/-- Authoritative status, from the Task interface status union. The code
never writes processing, but the union declares it. -/
inductive ApiStatus where
  | pending
  | processing
  | completed
  | failed
deriving DecidableEq

/-- An authoritative task record, from the Task interface. result and
error are not declared on the interface but are attached by the completion
route through a cast; they are absent (none) until that route sets them. -/
structure ApiTask where
  id : String
  type : String
  payload : Option String
  createdAt : String
  status : ApiStatus
  completedAt : Option String
  result : Option String
  error : Option String
deriving DecidableEq

/-- The TASK_STORAGE KV namespace. -/
abbrev ApiStore := List (String × ApiTask)

/-- JS truthiness of an optional string field: undefined and the empty
string are falsy. -/
def jsTruthy : Option String → Bool
  | none => false
  | some s => !(s == "")

/-- A parsed POST /tasks request body. -/
structure SubmitRequest where
  type : Option String
  payload : Option String
deriving DecidableEq

/-- Outcome of the POST /tasks route: created is the 201 response,
validationError the 400 response, internalError the 500 response produced
by the catch block. -/
inductive SubmitResult where
  | created (taskId : String)
  | validationError
  | internalError
deriving DecidableEq

/-- The POST /tasks route (the Hono API worker): body = none models a
request whose JSON parse throws, which the catch block turns into a 500;
a parsed body with a falsy type field is answered 400; otherwise a fresh
pending record is stored and the message is sent to the queue. The third
component is the queue message sent, if any. -/
def submit (store : ApiStore) (body : Option SubmitRequest) (newId : String)
    (nowIso : String) : SubmitResult × ApiStore × Option QueueMessage :=
  match body with
  | none => (.internalError, store, none)
  | some req =>
    if jsTruthy req.type = false then
      (.validationError, store, none)
    else
      let task : ApiTask :=
        { id := newId, type := req.type.getD "", payload := req.payload,
          createdAt := nowIso, status := .pending, completedAt := none,
          result := none, error := none }
      (.created newId, kvInsert store newId task,
        some { taskId := newId, type := req.type.getD "",
               payload := req.payload, createdAt := nowIso })

/-- The status snapshot returned by GET /tasks/:id/status: the route
serialises exactly the fields taskId, status, type, createdAt and
completedAt of the stored record. -/
structure StatusSnapshot where
  taskId : String
  status : ApiStatus
  type : String
  createdAt : String
  completedAt : Option String
deriving DecidableEq

/-- Outcome of the GET /tasks/:id/status route. -/
inductive StatusResult where
  | notFound
  | ok (snapshot : StatusSnapshot)
deriving DecidableEq

/-- The GET /tasks/:id/status route: 404 when no record exists, otherwise
the five-field snapshot of the stored record; the route performs no
write, so the store comes back unchanged. -/
def getStatus (store : ApiStore) (taskId : String) :
    StatusResult × ApiStore :=
  match kvLookup store taskId with
  | none => (.notFound, store)
  | some t => (.ok ⟨t.id, t.status, t.type, t.createdAt, t.completedAt⟩, store)

/-- Outcome of the POST /tasks/:id/complete route on the Submission
Service. -/
inductive CompleteResult where
  | notFound
  | ok (status : ApiStatus)
deriving DecidableEq

/-- The update the completion route applies to an existing record: set the
status from the success flag, stamp completedAt, and attach result and
error only when truthy; existing result or error values are never
cleared. -/
def applyCompletion (task : ApiTask) (success : Bool)
    (result err : Option String) (nowIso : String) : ApiTask :=
  let task1 := { task with
    status := if success then ApiStatus.completed else ApiStatus.failed,
    completedAt := some nowIso }
  let task2 := if jsTruthy result then { task1 with result := result }
    else task1
  if jsTruthy err then { task2 with error := err } else task2

/-- The POST /tasks/:id/complete route (reportCompletion): 404 when the
record is unknown, otherwise apply the completion update and store the
record back. -/
def reportCompletion (store : ApiStore) (taskId : String) (success : Bool)
    (result err : Option String) (nowIso : String) :
    CompleteResult × ApiStore :=
  match kvLookup store taskId with
  | none => (.notFound, store)
  | some task =>
    let updated := applyCompletion task success result err nowIso
    (.ok updated.status, kvInsert store taskId updated)

/-- Whether an authoritative status is terminal. -/
def isTerminal : ApiStatus → Bool
  | .completed => true
  | .failed => true
  | _ => false

theorem kvInsert_kvInsert_self {α : Type} (store : List (String × α))
    (k : String) (v v' : α) :
    kvInsert (kvInsert store k v) k v' = kvInsert store k v' := by
  unfold kvInsert
  simp [kvErase, kvErase_kvErase_self]

theorem mem_of_mem_kvErase {α : Type} (store : List (String × α))
    (k₀ k : String) (v : α) (h : (k, v) ∈ kvErase store k₀) :
    (k, v) ∈ store := by
  induction store with
  | nil => cases h
  | cons p rest ih =>
    obtain ⟨k', v'⟩ := p
    by_cases hk : k' = k₀
    · rw [kvErase, if_pos hk] at h
      exact List.mem_cons_of_mem _ (ih h)
    · rw [kvErase, if_neg hk] at h
      rcases List.mem_cons.mp h with heq | hmem
      · exact heq ▸ List.mem_cons_self _ _
      · exact List.mem_cons_of_mem _ (ih hmem)

theorem applyCompletion_idem (task : ApiTask) (success : Bool)
    (result err : Option String) (nowIso : String) :
    applyCompletion (applyCompletion task success result err nowIso)
        success result err nowIso =
      applyCompletion task success result err nowIso := by
  obtain ⟨i, ty, pl, ca, st, co, re, er⟩ := task
  unfold applyCompletion
  by_cases hr : jsTruthy result <;> by_cases he : jsTruthy err <;>
    simp [hr, he]

theorem applyCompletion_reapply (task : ApiTask) (success : Bool)
    (result err : Option String) (nowIso nowIso2 : String) :
    applyCompletion (applyCompletion task success result err nowIso)
        success result err nowIso2 =
      { (applyCompletion task success result err nowIso) with
          completedAt := some nowIso2 } := by
  obtain ⟨i, ty, pl, ca, st, co, re, er⟩ := task
  unfold applyCompletion
  by_cases hr : jsTruthy result <;> by_cases he : jsTruthy err <;>
    simp [hr, he]

theorem applyCompletion_status (task : ApiTask) (success : Bool)
    (result err : Option String) (nowIso : String) :
    (applyCompletion task success result err nowIso).status =
      if success then ApiStatus.completed else ApiStatus.failed := by
  unfold applyCompletion
  by_cases hr : jsTruthy result <;> by_cases he : jsTruthy err <;>
    simp [hr, he]

theorem applyCompletion_terminal (task : ApiTask) (success : Bool)
    (result err : Option String) (nowIso : String) :
    isTerminal (applyCompletion task success result err nowIso).status
      = true := by
  rw [applyCompletion_status]
  cases success <;> simp [isTerminal]

/-- C4: reportCompletion on an existing record is idempotent: re-applying
the same terminal outcome (same success flag, result and failureReason,
stamped at the same instant) to the store it produced leaves that store
identical; a re-report of the same outcome stamped at another instant
changes the stored record only in its completedAt stamp (last report
wins); the record left is terminal, and any later reportCompletion call,
whatever its arguments, still leaves the record terminal (never back to a
non-terminal state). -/
theorem reportCompletion_idempotent (store : ApiStore) (taskId : String)
    (success : Bool) (result err : Option String) (nowIso : String)
    (s1 : ApiStore) (h : (kvLookup store taskId).isSome = true)
    (hs1 : s1 = (reportCompletion store taskId success result err nowIso).2) :
    (reportCompletion s1 taskId success result err nowIso).2 = s1
    ∧ (∀ nowIso2 t, kvLookup s1 taskId = some t →
        kvLookup (reportCompletion s1 taskId success result err
          nowIso2).2 taskId = some { t with completedAt := some nowIso2 })
    ∧ (∀ t, kvLookup s1 taskId = some t → isTerminal t.status = true)
    ∧ (∀ success2 result2 err2 nowIso2 t,
        kvLookup (reportCompletion s1 taskId success2 result2 err2
          nowIso2).2 taskId = some t → isTerminal t.status = true) := by
  obtain ⟨task, htask⟩ := Option.isSome_iff_exists.mp h
  have hs1' : s1 =
      kvInsert store taskId (applyCompletion task success result err nowIso) := by
    rw [hs1]
    simp [reportCompletion, htask]
  have hl1 : kvLookup s1 taskId =
      some (applyCompletion task success result err nowIso) := by
    rw [hs1']
    exact kvLookup_kvInsert_self store taskId _
  refine ⟨?_, ?_, ?_, ?_⟩
  · calc (reportCompletion s1 taskId success result err nowIso).2
        = kvInsert s1 taskId
            (applyCompletion (applyCompletion task success result err nowIso)
              success result err nowIso) := by
          simp [reportCompletion, hl1]
      _ = kvInsert s1 taskId
            (applyCompletion task success result err nowIso) := by
          rw [applyCompletion_idem]
      _ = s1 := by
          rw [hs1', kvInsert_kvInsert_self]
  · intro nowIso2 t ht
    rw [hl1] at ht
    injection ht with ht
    rw [show (reportCompletion s1 taskId success result err nowIso2).2 =
        kvInsert s1 taskId
          (applyCompletion (applyCompletion task success result err nowIso)
            success result err nowIso2) from by
      simp [reportCompletion, hl1]]
    rw [kvLookup_kvInsert_self, applyCompletion_reapply, ht]
  · intro t ht
    rw [hl1] at ht
    injection ht with ht
    rw [← ht]
    exact applyCompletion_terminal task success result err nowIso
  · intro success2 result2 err2 nowIso2 t ht
    rw [show (reportCompletion s1 taskId success2 result2 err2 nowIso2).2 =
        kvInsert s1 taskId
          (applyCompletion (applyCompletion task success result err nowIso)
            success2 result2 err2 nowIso2) from by
      simp [reportCompletion, hl1]] at ht
    rw [kvLookup_kvInsert_self] at ht
    injection ht with ht
    rw [← ht]
    exact applyCompletion_terminal _ success2 result2 err2 nowIso2

/-- The authoritative store after one successful submit of an email task
with id a at time t0. -/
def apiSampleStore : ApiStore :=
  (submit [] (some { type := some "email", payload := some "p" }) "a"
    "t0").2.1

/-- Witness for reportCompletion_idempotent: reporting the same successful
outcome twice on the freshly submitted record leaves the store of the
first report unchanged. -/
theorem reportCompletion_idempotent_witness :
    (reportCompletion
        (reportCompletion apiSampleStore "a" true (some "r") none "t1").2
        "a" true (some "r") none "t1").2 =
      (reportCompletion apiSampleStore "a" true (some "r") none "t1").2 :=
  (reportCompletion_idempotent apiSampleStore "a" true (some "r") none "t1"
    (reportCompletion apiSampleStore "a" true (some "r") none "t1").2
    (by decide) rfl).1

/-- Counterexample to C7 as stated: starting from a freshly submitted
record, a successful report carrying a result followed by a failure report
carrying an error leaves a record holding a result and a failureReason at
the same time, because the completion route never clears the fields it
does not set. -/
theorem reportCompletion_mixed_sequence_sets_both :
    ((kvLookup
        (reportCompletion
          (reportCompletion apiSampleStore "a" true (some "r") none "t1").2
          "a" false none (some "boom") "t2").2 "a").map
      fun t => (t.status, t.result, t.error)) =
      some (ApiStatus.failed, some "r", some "boom") := by
  decide

/-- The authoritative stores reachable from the empty store through the
Submission Service's writing routes; the status and listing routes perform
no writes. -/
inductive ApiReachable : ApiStore → Prop where
  | empty : ApiReachable []
  | submitStep (s : ApiStore) (body : Option SubmitRequest)
      (newId nowIso : String) : ApiReachable s →
      ApiReachable (submit s body newId nowIso).2.1
  | reportStep (s : ApiStore) (taskId : String) (success : Bool)
      (result err : Option String) (nowIso : String) : ApiReachable s →
      ApiReachable (reportCompletion s taskId success result err nowIso).2

/-- C7 as amended: in every reachable authoritative store, a record
carrying a result or a failureReason has terminal status (completed or
failed); the two fields are however not mutually exclusive, see
reportCompletion_mixed_sequence_sets_both. -/
theorem result_error_only_when_terminal (s : ApiStore)
    (h : ApiReachable s) :
    ∀ k t, (k, t) ∈ s → (t.result.isSome || t.error.isSome) = true →
      isTerminal t.status = true := by
  induction h with
  | empty =>
    intro k t hmem _
    cases hmem
  | submitStep s body newId nowIso hr ih =>
    intro k t hmem hfields
    cases body with
    | none =>
      simp only [submit] at hmem
      exact ih k t hmem hfields
    | some req =>
      by_cases hty : jsTruthy req.type = false
      · simp only [submit, if_pos hty] at hmem
        exact ih k t hmem hfields
      · simp only [submit, if_neg hty, kvInsert] at hmem
        rcases List.mem_cons.mp hmem with heq | hmem
        · injection heq with hk ht
          rw [ht] at hfields
          simp at hfields
        · exact ih k t (mem_of_mem_kvErase s newId k t hmem) hfields
  | reportStep s taskId success result err nowIso hr ih =>
    intro k t hmem hfields
    cases hl : kvLookup s taskId with
    | none =>
      simp only [reportCompletion, hl] at hmem
      exact ih k t hmem hfields
    | some task =>
      simp only [reportCompletion, hl, kvInsert] at hmem
      rcases List.mem_cons.mp hmem with heq | hmem
      · injection heq with hk ht
        rw [ht]
        exact applyCompletion_terminal task success result err nowIso
      · exact ih k t (mem_of_mem_kvErase s taskId k t hmem) hfields

/-- The record left for id a after the successful report of the witness
scenario. -/
def sampleCompletedTask : ApiTask :=
  { id := "a", type := "email", payload := some "p", createdAt := "t0",
    status := .completed, completedAt := some "t1", result := some "r",
    error := none }

/-- Witness for result_error_only_when_terminal: after submit and one
successful report, the record of the reachable store that carries a result
has terminal status. -/
theorem result_error_only_when_terminal_witness :
    isTerminal sampleCompletedTask.status = true :=
  result_error_only_when_terminal
    (reportCompletion apiSampleStore "a" true (some "r") none "t1").2
    (ApiReachable.reportStep apiSampleStore "a" true (some "r") none "t1"
      (ApiReachable.submitStep []
        (some { type := some "email", payload := some "p" }) "a" "t0"
        ApiReachable.empty))
    "a" sampleCompletedTask (by decide) (by decide)

/-- A pending authoritative record with a chosen payload, for the status
counterexample. -/
def sampleApiTaskP (p : Option String) : ApiTask :=
  { id := "a", type := "email", payload := p, createdAt := "t0",
    status := .pending, completedAt := none, result := none, error := none }

/-- Counterexample to C8 as stated: two stored records that differ (in
their payload) produce the same status response, so the response cannot
contain every field of the stored task; the route serialises only taskId,
status, type, createdAt and completedAt. -/
theorem getStatus_omits_payload :
    sampleApiTaskP (some "p1") ≠ sampleApiTaskP (some "p2")
    ∧ (getStatus [("a", sampleApiTaskP (some "p1"))] "a").1 =
      (getStatus [("a", sampleApiTaskP (some "p2"))] "a").1 := by
  decide

/-- C8 as amended: getStatus answers 404 NotFoundError when no record
exists and otherwise returns the snapshot of the stored record's id,
status, type, createdAt and completedAt fields (payload, result and
failureReason are not part of the response); in both cases the
authoritative store is left unchanged. -/
theorem getStatus_spec (store : ApiStore) (taskId : String) :
    (kvLookup store taskId = none →
      getStatus store taskId = (.notFound, store))
    ∧ (∀ t, kvLookup store taskId = some t →
      getStatus store taskId =
        (.ok ⟨t.id, t.status, t.type, t.createdAt, t.completedAt⟩, store))
    ∧ (getStatus store taskId).2 = store := by
  refine ⟨?_, ?_, ?_⟩
  · intro h
    simp [getStatus, h]
  · intro t h
    simp [getStatus, h]
  · unfold getStatus
    cases kvLookup store taskId <;> rfl

/-- Witness for getStatus_spec: the snapshot of a stored pending record,
and 404 on an empty store. -/
theorem getStatus_spec_witness :
    getStatus [("a", sampleApiTaskP (some "p1"))] "a" =
      (.ok ⟨"a", .pending, "email", "t0", none⟩,
        [("a", sampleApiTaskP (some "p1"))])
    ∧ getStatus [] "a" = (.notFound, ([] : ApiStore)) :=
  ⟨(getStatus_spec [("a", sampleApiTaskP (some "p1"))] "a").2.1
    (sampleApiTaskP (some "p1")) rfl,
   (getStatus_spec [] "a").1 rfl⟩

/-- C10: a POST /tasks request whose body does not parse as JSON is
answered 500 InternalError by the catch block, not 400; the 400
ValidationError response occurs exactly when the body parses and its type
field is absent or falsy. In both error cases nothing is stored and
nothing is sent to the queue. -/
theorem submit_error_codes (store : ApiStore) (body : Option SubmitRequest)
    (newId nowIso : String) :
    (body = none →
      submit store body newId nowIso = (.internalError, store, none))
    ∧ (∀ req, body = some req → jsTruthy req.type = false →
      submit store body newId nowIso = (.validationError, store, none))
    ∧ ((submit store body newId nowIso).1 = .validationError →
      ∃ req, body = some req ∧ jsTruthy req.type = false) := by
  refine ⟨?_, ?_, ?_⟩
  · intro h
    rw [h]
    rfl
  · intro req h hty
    rw [h]
    simp [submit, hty]
  · intro h
    cases body with
    | none =>
      simp [submit] at h
    | some req =>
      by_cases hty : jsTruthy req.type = false
      · exact ⟨req, rfl, hty⟩
      · simp [submit, hty] at h

/-- Witness for submit_error_codes: an unparseable body is answered 500
and a parsed body with an empty type field is answered 400. -/
theorem submit_error_codes_witness :
    submit [] none "a" "t0" = (.internalError, ([] : ApiStore), none)
    ∧ submit [] (some { type := some "", payload := none }) "a" "t0" =
      (.validationError, ([] : ApiStore), none) :=
  ⟨(submit_error_codes [] none "a" "t0").1 rfl,
   (submit_error_codes [] (some { type := some "", payload := none }) "a"
      "t0").2.1 { type := some "", payload := none } rfl (by decide)⟩

end TaskQueue
